import Mathlib

/-!
Verification of the epoch-server MCP adapter (`src/mcp-server/main.py`).

The adapter exposes three tools (`health_check`, `start_epoch`,
`distribute_subsidies`). Each handler issues at most one HTTP request to a
configurable base URL and renders the outcome (success body, HTTP error
status, or transport failure) as a single text content block.

The embedding below follows `main.py` line by line. External collaborators
(the `httpx` client, the CPython `json` module, `os.getenv`) are modelled
faithfully to their documented behaviour at the pinned versions
(`httpx==0.28.1`, CPython 3 stdlib), since the handlers' observable output
depends on them.
-/

/-- A Python object, as produced by decoding a JSON body
(`httpx.Response.json()` returns `None`/`bool`/`int`/`str`/`list`/`dict`).
Floating-point numbers are not modelled; no claim involves them, and the
string renderings under study never contain escape-requiring characters. -/
inductive PyObj where
  | pyNone : PyObj
  | pyBool : Bool → PyObj
  | pyInt : Int → PyObj
  | pyStr : String → PyObj
  | pyList : List PyObj → PyObj
  | pyDict : List (String × PyObj) → PyObj

mutual

/-- Python `repr` of a decoded JSON object (strings in single quotes; dicts
as `\x7b'k': v, ...\x7d`). Character escaping inside string literals is not
modelled: no value in this development contains a quote or backslash. -/
def pyRepr : PyObj → String
  | .pyNone => "None"
  | .pyBool true => "True"
  | .pyBool false => "False"
  | .pyInt n => toString n
  | .pyStr s => "\x27" ++ s ++ "\x27"
  | .pyList xs => "[" ++ pyReprList xs ++ "]"
  | .pyDict kvs => "\x7b" ++ pyReprDict kvs ++ "\x7d"

/-- `repr` of the comma-separated elements of a Python list. -/
def pyReprList : List PyObj → String
  | [] => ""
  | [x] => pyRepr x
  | x :: y :: xs => pyRepr x ++ ", " ++ pyReprList (y :: xs)

/-- `repr` of the comma-separated `'key': value` entries of a Python dict. -/
def pyReprDict : List (String × PyObj) → String
  | [] => ""
  | [(k, v)] => "\x27" ++ k ++ "\x27: " ++ pyRepr v
  | (k, v) :: kv :: kvs =>
      "\x27" ++ k ++ "\x27: " ++ pyRepr v ++ ", " ++ pyReprDict (kv :: kvs)

end

/-- Python `str()` of a decoded object, as used by f-string interpolation:
the identity on strings, `repr` otherwise (for dicts and lists `str` and
`repr` coincide). -/
def pyStrOf : PyObj → String
  | .pyStr s => s
  | v => pyRepr v

/-- Python truthiness (`if not epoch_id`): `None`, `False`, `0`, `""`, `[]`
and `\x7b\x7d` are falsy. -/
def pyTruthy : PyObj → Bool
  | .pyNone => false
  | .pyBool b => b
  | .pyInt n => !(n == 0)
  | .pyStr s => !s.isEmpty
  | .pyList xs => !xs.isEmpty
  | .pyDict kvs => !kvs.isEmpty

/-- Python `dict.get(k)`: the mapped value, or `None` when absent.
An argument mapping is a finite association list (first binding wins). -/
def dictGet (args : List (String × PyObj)) (k : String) : PyObj :=
  match args.lookup k with
  | some v => v
  | none => .pyNone

/-- `mcp.types.TextContent`: one content block of a tool result. -/
structure TextContent where
  type : String
  text : String
deriving DecidableEq

/-- HTTP method of an outbound request (the adapter only uses GET and POST). -/
inductive Method where
  | get : Method
  | post : Method
deriving DecidableEq

/-- An outbound HTTP request issued through the shared `httpx` client:
method plus fully assembled URL (no body, no headers are ever set). -/
structure HttpRequest where
  method : Method
  url : String
deriving DecidableEq

/-- The body of an HTTP response, as seen through `httpx.Response`:
either text that decodes as JSON to a given object (`.json()` succeeds),
or raw text that is not valid JSON (`.json()` raises, `.text` is the raw
string). -/
inductive RespBody where
  | jsonBody : PyObj → RespBody
  | textBody : String → RespBody

/-- An HTTP response: status code, reason phrase sent by the server, body. -/
structure HttpResponse where
  status : Nat
  reasonPhrase : String
  body : RespBody

/-- Outcome of one call through the `httpx` client: a response, or a
transport-level failure (connection error, timeout, ...) carrying the
exception description `str(e)`. -/
inductive HttpResult where
  | ok : HttpResponse → HttpResult
  | transportError : String → HttpResult

/-- `httpx.Response.is_success` (0.28.1): status in 200..299;
`raise_for_status` raises `HTTPStatusError` exactly when this is false. -/
def isSuccessStatus (status : Nat) : Bool :=
  200 ≤ status && status ≤ 299

/-- Modelled from httpx 0.28.1 (`Response.raise_for_status`): the error-class
word chosen from the leading digit of the status code. -/
def errorTypeOfStatus (status : Nat) : String :=
  if status / 100 == 1 then "Informational response"
  else if status / 100 == 3 then "Redirect response"
  else if status / 100 == 4 then "Client error"
  else if status / 100 == 5 then "Server error"
  else "Invalid status code"

/-- Modelled from httpx 0.28.1: `str(e)` for the `HTTPStatusError` raised by
`raise_for_status`. It embeds the status code, the reason phrase and the
request URL - never the response body. -/
def httpStatusErrorStr (status : Nat) (reason url : String) : String :=
  errorTypeOfStatus status ++ " \x27" ++ toString status ++ " " ++ reason ++
    "\x27 for url \x27" ++ url ++
    "\x27\nFor more information check: https://developer.mozilla.org/en-US/docs/Web/HTTP/Status/" ++
    toString status

/-- Modelled from the CPython `json` module via `httpx.Response.json()`:
`str(e)` for the `JSONDecodeError` raised on a body that is not valid JSON.
The message for a body that does not begin a JSON token (every case used in
this development) is the fixed `Expecting value` diagnostic; its exact text
never feeds back into control flow. -/
def jsonDecodeMsg (_raw : String) : String :=
  "Expecting value: line 1 column 1 (char 0)"

/-- `os.getenv(key, dflt)`: the environment is a finite association list;
the default applies only when the key is absent (an empty-string value is
returned as is). -/
def os_getenv (env : List (String × String)) (key dflt : String) : String :=
  match env.lookup key with
  | some v => v
  | none => dflt

/-- `EPOCH_SERVER_URL = os.getenv("EPOCH_SERVER_URL", "http://localhost:8080")`
(main.py line 19): the base URL for all outbound requests. -/
def EPOCH_SERVER_URL (env : List (String × String)) : String :=
  os_getenv env "EPOCH_SERVER_URL" "http://localhost:8080"

/-- The text rendered by `handle_health_check` (main.py lines 76-94) for
each outcome of its HTTP call. On a response, `raise_for_status` raises
`HTTPStatusError` for a non-2xx status, and `response.json()` raises
`JSONDecodeError` on a non-JSON body; both land in the handler\x27s single
generic `except Exception` clause, whose text embeds only `str(e)`. -/
def healthCheckText (url : String) : HttpResult → String
  | .transportError d => "Health check failed: " ++ d
  | .ok resp =>
      if isSuccessStatus resp.status then
        match resp.body with
        | .jsonBody v => "Health check successful: " ++ pyStrOf v
        | .textBody s => "Health check failed: " ++ jsonDecodeMsg s
      else
        "Health check failed: " ++
          httpStatusErrorStr resp.status resp.reasonPhrase url

/-- `handle_health_check` (main.py lines 76-94). The network is a function
from the issued request to its outcome; the result pairs the returned
content blocks (each `return` in the source yields a one-element list of
`TextContent`) with the list of HTTP requests actually issued. -/
def handle_health_check (base : String) (net : HttpRequest → HttpResult) :
    List TextContent × List HttpRequest :=
  ([⟨"text", healthCheckText (base ++ "/health") (net ⟨.get, base ++ "/health"⟩)⟩],
   [⟨.get, base ++ "/health"⟩])

/-- The text rendered by `handle_start_epoch` (main.py lines 96-140) for
each outcome of its HTTP call. A non-2xx status lands in the dedicated
`except httpx.HTTPStatusError` clause, which decodes the error body as JSON
and falls back to the raw response text; a `JSONDecodeError` on a 2xx body
and any transport failure land in the generic `except Exception` clause. -/
def startEpochText (eid : String) : HttpResult → String
  | .transportError d => "Failed to start epoch " ++ eid ++ ": " ++ d
  | .ok resp =>
      if isSuccessStatus resp.status then
        match resp.body with
        | .jsonBody v =>
            "Epoch " ++ eid ++ " started successfully: " ++ pyStrOf v
        | .textBody s =>
            "Failed to start epoch " ++ eid ++ ": " ++ jsonDecodeMsg s
      else
        "Failed to start epoch " ++ eid ++ ": HTTP " ++
          toString resp.status ++ " - " ++
          (match resp.body with
           | .jsonBody v => pyStrOf v
           | .textBody s => s)

/-- `handle_start_epoch` (main.py lines 96-140): validate `epoch_id`, POST
`/epochs/\x7bepoch_id\x7d/start`, render the outcome. An absent or falsy
`epoch_id` short-circuits before any HTTP call. -/
def handle_start_epoch (base : String) (net : HttpRequest → HttpResult)
    (arguments : List (String × PyObj)) :
    List TextContent × List HttpRequest :=
  if !pyTruthy (dictGet arguments "epoch_id") then
    ([⟨"text", "Error: epoch_id is required"⟩], [])
  else
    ([⟨"text", startEpochText (pyStrOf (dictGet arguments "epoch_id"))
        (net ⟨.post, base ++ "/epochs/" ++
          pyStrOf (dictGet arguments "epoch_id") ++ "/start"⟩)⟩],
     [⟨.post, base ++ "/epochs/" ++
        pyStrOf (dictGet arguments "epoch_id") ++ "/start"⟩])

/-- The text rendered by `handle_distribute_subsidies` (main.py lines
142-186) for each outcome of its HTTP call; same error structure as
`startEpochText`. -/
def distributeText (eid : String) : HttpResult → String
  | .transportError d =>
      "Failed to distribute subsidies for epoch " ++ eid ++ ": " ++ d
  | .ok resp =>
      if isSuccessStatus resp.status then
        match resp.body with
        | .jsonBody v =>
            "Subsidies distributed for epoch " ++ eid ++ ": " ++ pyStrOf v
        | .textBody s =>
            "Failed to distribute subsidies for epoch " ++ eid ++ ": " ++
              jsonDecodeMsg s
      else
        "Failed to distribute subsidies for epoch " ++ eid ++ ": HTTP " ++
          toString resp.status ++ " - " ++
          (match resp.body with
           | .jsonBody v => pyStrOf v
           | .textBody s => s)

/-- `handle_distribute_subsidies` (main.py lines 142-186): validate
`epoch_id`, POST `/epochs/\x7bepoch_id\x7d/distribute`, render the
outcome. -/
def handle_distribute_subsidies (base : String) (net : HttpRequest → HttpResult)
    (arguments : List (String × PyObj)) :
    List TextContent × List HttpRequest :=
  if !pyTruthy (dictGet arguments "epoch_id") then
    ([⟨"text", "Error: epoch_id is required"⟩], [])
  else
    ([⟨"text", distributeText (pyStrOf (dictGet arguments "epoch_id"))
        (net ⟨.post, base ++ "/epochs/" ++
          pyStrOf (dictGet arguments "epoch_id") ++ "/distribute"⟩)⟩],
     [⟨.post, base ++ "/epochs/" ++
        pyStrOf (dictGet arguments "epoch_id") ++ "/distribute"⟩])

/-- An inbound tool invocation: tool name plus argument mapping. -/
structure ToolInvocation where
  name : String
  arguments : List (String × PyObj)

/-- A registered call-tool handler, as the mcp server invokes it: a function
of the invocation's tool name and argument mapping. Each Python handler in
`setup_tools` has this signature `(name, arguments)`; all three ignore
`name`. -/
def McpHandler : Type :=
  String → List (String × PyObj) → List TextContent × List HttpRequest

/-- Modelled from mcp==1.0.0 (the dependency pinned in run.py line 13):
`Server.call_tool()` takes no tool name; its decorator stores the decorated
function as THE handler for `CallToolRequest` in the server's
handler table, so each registration overwrites any previous one. The slot
holds at most one handler for all tools. -/
def callToolRegister (_slot : Option McpHandler) (f : McpHandler) :
    Option McpHandler :=
  some f

/-- `setup_tools` (main.py lines 27-190): applies `call_tool()` to
`handle_health_check` (line 74), then `handle_start_epoch` (line 96), then
`handle_distribute_subsidies` (line 142), in source order. Under the
overwrite semantics of `callToolRegister` the slot ends up holding only the
last registration. -/
def setup_tools (base : String) (net : HttpRequest → HttpResult) :
    Option McpHandler :=
  callToolRegister
    (callToolRegister
      (callToolRegister none
        (fun _name _args => handle_health_check base net))
      (fun _name args => handle_start_epoch base net args))
    (fun _name args => handle_distribute_subsidies base net args)

/-- Modelled from mcp==1.0.0: the server answers an inbound
`CallToolRequest` by applying the single registered call-tool handler to the
invocation's name and arguments (`none` if nothing was registered). -/
def dispatch (base : String) (net : HttpRequest → HttpResult)
    (inv : ToolInvocation) : Option (List TextContent × List HttpRequest) :=
  (setup_tools base net).map (fun h => h inv.name inv.arguments)

/-- `pat` occurs at the head of the character list. -/
def leadsWith : List Char → List Char → Bool
  | [], _ => true
  | _ :: _, [] => false
  | a :: as, b :: bs => a == b && leadsWith as bs

/-- `pat` occurs contiguously somewhere in the character list. -/
def occursIn (pat : List Char) : List Char → Bool
  | [] => leadsWith pat []
  | c :: cs => leadsWith pat (c :: cs) || occursIn pat cs

/-- Substring containment on strings (used to state the "contains `500`",
"contains `boom`" properties). -/
def strContains (s pat : String) : Bool :=
  occursIn pat.toList s.toList

/-- Mock remote answering every request with HTTP 500 and the JSON body
`\x7b"error": "boom"\x7d`. -/
def mock500json : HttpRequest → HttpResult :=
  fun _ => .ok ⟨500, "Internal Server Error",
    .jsonBody (.pyDict [("error", .pyStr "boom")])⟩

/-- Mock remote answering every request with HTTP 500 and the plain-text
(non-JSON) body `boom`. -/
def mock500text : HttpRequest → HttpResult :=
  fun _ => .ok ⟨500, "Internal Server Error", .textBody "boom"⟩

/-- Mock remote answering `POST http://x/epochs/42/start` with HTTP 200 and
JSON body `\x7b"status": "started"\x7d`, and refusing every other request. -/
def mockStart42 : HttpRequest → HttpResult := fun r =>
  if r = ⟨.post, "http://x/epochs/42/start"⟩ then
    .ok ⟨200, "OK", .jsonBody (.pyDict [("status", .pyStr "started")])⟩
  else
    .transportError "All connection attempts failed"

/-- A non-empty string is not `isEmpty`. -/
theorem isEmpty_false_of_ne (s : String) (h : s ≠ "") : s.isEmpty = false := by
  rw [Bool.eq_false_iff]
  intro hh
  exact h ((String.isEmpty_iff s).mp hh)

/-- The empty pattern occurs in every character list. -/
theorem occursIn_nil (ys : List Char) : occursIn [] ys = true := by
  cases ys <;> simp [occursIn, leadsWith]

/-- A pattern at the head of `xs` is still at the head of `xs ++ ys`. -/
theorem leadsWith_append (p xs ys : List Char) (h : leadsWith p xs = true) :
    leadsWith p (xs ++ ys) = true := by
  induction p generalizing xs with
  | nil => simp [leadsWith]
  | cons a as ih =>
      cases xs with
      | nil => simp [leadsWith] at h
      | cons b bs =>
          simp only [leadsWith, Bool.and_eq_true] at h
          simp only [List.cons_append, leadsWith, Bool.and_eq_true]
          exact ⟨h.1, ih bs h.2⟩

/-- An occurrence in the right part survives prepending on the left. -/
theorem occursIn_append_right (p xs ys : List Char)
    (h : occursIn p ys = true) : occursIn p (xs ++ ys) = true := by
  induction xs with
  | nil => simpa using h
  | cons c cs ih =>
      simp only [List.cons_append, occursIn, Bool.or_eq_true]
      exact Or.inr ih

/-- An occurrence in the left part survives appending on the right. -/
theorem occursIn_append_left (p xs ys : List Char)
    (h : occursIn p xs = true) : occursIn p (xs ++ ys) = true := by
  induction xs with
  | nil =>
      cases p with
      | nil => exact occursIn_nil ys
      | cons a as => simp [occursIn, leadsWith] at h
  | cons c cs ih =>
      simp only [occursIn, Bool.or_eq_true] at h
      simp only [List.cons_append, occursIn, Bool.or_eq_true]
      rcases h with h | h
      · exact Or.inl (leadsWith_append _ _ _ h)
      · exact Or.inr (ih h)

/-- Substring containment in the right summand of a string append. -/
theorem strContains_append_right (s t p : String)
    (h : strContains t p = true) : strContains (s ++ t) p = true := by
  unfold strContains at h ⊢
  rw [show (s ++ t).toList = s.toList ++ t.toList from
    congrArg id (String.data_append s t)]
  exact occursIn_append_right _ _ _ h

/-- Substring containment in the left summand of a string append. -/
theorem strContains_append_left (s t p : String)
    (h : strContains s p = true) : strContains (s ++ t) p = true := by
  unfold strContains at h ⊢
  rw [show (s ++ t).toList = s.toList ++ t.toList from
    congrArg id (String.data_append s t)]
  exact occursIn_append_left _ _ _ h

/-- `health_check` always issues exactly the one request `GET base/health`. -/
theorem handle_health_check_requests (base : String)
    (net : HttpRequest → HttpResult) :
    (handle_health_check base net).2 = [⟨.get, base ++ "/health"⟩] := rfl

/-- With a non-empty string `epoch_id`, `start_epoch` issues exactly the one
request `POST base/epochs/e/start`. -/
theorem handle_start_epoch_requests (base e : String) (he : e ≠ "")
    (net : HttpRequest → HttpResult) :
    (handle_start_epoch base net [("epoch_id", .pyStr e)]).2 =
      [⟨.post, base ++ "/epochs/" ++ e ++ "/start"⟩] := by
  unfold handle_start_epoch
  simp [dictGet, List.lookup, pyTruthy, pyStrOf, isEmpty_false_of_ne e he]

/-- With a non-empty string `epoch_id`, `distribute_subsidies` issues exactly
the one request `POST base/epochs/e/distribute`. -/
theorem handle_distribute_subsidies_requests (base e : String) (he : e ≠ "")
    (net : HttpRequest → HttpResult) :
    (handle_distribute_subsidies base net [("epoch_id", .pyStr e)]).2 =
      [⟨.post, base ++ "/epochs/" ++ e ++ "/distribute"⟩] := by
  unfold handle_distribute_subsidies
  simp [dictGet, List.lookup, pyTruthy, pyStrOf, isEmpty_false_of_ne e he]

/-- C1 fails in the code: because each `call_tool()` registration in
`setup_tools` overwrites the single call-tool handler slot (mcp==1.0.0),
every invocation - whatever its tool name - is handled by
`handle_distribute_subsidies`, which ignores the name. In particular an
invocation named `health_check` with empty arguments is answered with that
handler\x27s validation error "Error: epoch_id is required" and zero HTTP
requests, instead of a health check. -/
theorem c1_dispatch_misroutes_every_name (base : String)
    (net : HttpRequest → HttpResult) (args : List (String × PyObj)) :
    dispatch base net ⟨"health_check", args⟩ =
      some (handle_distribute_subsidies base net args) ∧
    dispatch base net ⟨"start_epoch", args⟩ =
      some (handle_distribute_subsidies base net args) ∧
    dispatch base net ⟨"distribute_subsidies", args⟩ =
      some (handle_distribute_subsidies base net args) ∧
    dispatch "http://localhost:8080" mock500json ⟨"health_check", []⟩ =
      some ([⟨"text", "Error: epoch_id is required"⟩], []) :=
  ⟨rfl, rfl, rfl, rfl⟩

/-- C4: for `start_epoch` and `distribute_subsidies`, an argument mapping
with no `epoch_id` entry, or with `epoch_id` bound to the empty string,
yields exactly the single text block "Error: epoch_id is required" and
issues zero HTTP requests. -/
theorem c4_missing_epoch_id_short_circuits (base : String)
    (net : HttpRequest → HttpResult) (args : List (String × PyObj))
    (h : args.lookup "epoch_id" = none ∨
         args.lookup "epoch_id" = some (.pyStr "")) :
    handle_start_epoch base net args =
      ([⟨"text", "Error: epoch_id is required"⟩], []) ∧
    handle_distribute_subsidies base net args =
      ([⟨"text", "Error: epoch_id is required"⟩], []) := by
  have hd : pyTruthy (dictGet args "epoch_id") = false := by
    rcases h with h | h
    · simp [dictGet, h, pyTruthy]
    · simp only [dictGet, h, pyTruthy]
      rfl
  constructor <;>
    simp [handle_start_epoch, handle_distribute_subsidies, hd]

/-- Witness for C4 at the concrete empty argument mapping. -/
theorem c4_witness :
    handle_start_epoch "http://localhost:8080" mock500json [] =
      ([⟨"text", "Error: epoch_id is required"⟩], []) ∧
    handle_distribute_subsidies "http://localhost:8080" mock500json [] =
      ([⟨"text", "Error: epoch_id is required"⟩], []) :=
  c4_missing_epoch_id_short_circuits "http://localhost:8080" mock500json []
    (Or.inl rfl)

/-- C5: for every base URL, network behaviour and argument mapping, each of
the three handlers returns exactly one content block, tagged as text - the
handler is total over all outcomes (success body, HTTP error status,
transport failure), so no exception passes the handler boundary. -/
theorem c5_exactly_one_text_block (base : String)
    (net : HttpRequest → HttpResult) (args : List (String × PyObj)) :
    (handle_health_check base net).1.map TextContent.type = ["text"] ∧
    (handle_start_epoch base net args).1.map TextContent.type = ["text"] ∧
    (handle_distribute_subsidies base net args).1.map TextContent.type =
      ["text"] := by
  refine ⟨rfl, ?_, ?_⟩
  · unfold handle_start_epoch
    split <;> rfl
  · unfold handle_distribute_subsidies
    split <;> rfl

/-- C7: every invocation that passes validation issues exactly one HTTP
request: `health_check` issues `GET base/health`; `start_epoch` with
`epoch_id` `e` issues `POST base/epochs/e/start`; `distribute_subsidies`
with `epoch_id` `e` issues `POST base/epochs/e/distribute`. -/
theorem c7_single_request_fixed_route (base e : String) (he : e ≠ "")
    (net : HttpRequest → HttpResult) :
    (handle_health_check base net).2 = [⟨.get, base ++ "/health"⟩] ∧
    (handle_start_epoch base net [("epoch_id", .pyStr e)]).2 =
      [⟨.post, base ++ "/epochs/" ++ e ++ "/start"⟩] ∧
    (handle_distribute_subsidies base net [("epoch_id", .pyStr e)]).2 =
      [⟨.post, base ++ "/epochs/" ++ e ++ "/distribute"⟩] :=
  ⟨handle_health_check_requests base net,
   handle_start_epoch_requests base e he net,
   handle_distribute_subsidies_requests base e he net⟩

/-- Witness for C7 at base `http://localhost:8080` and epoch id `42`. -/
theorem c7_witness :
    (handle_health_check "http://localhost:8080" mock500json).2 =
      [⟨.get, "http://localhost:8080" ++ "/health"⟩] ∧
    (handle_start_epoch "http://localhost:8080" mock500json
        [("epoch_id", .pyStr "42")]).2 =
      [⟨.post, "http://localhost:8080" ++ "/epochs/" ++ "42" ++ "/start"⟩] ∧
    (handle_distribute_subsidies "http://localhost:8080" mock500json
        [("epoch_id", .pyStr "42")]).2 =
      [⟨.post, "http://localhost:8080" ++ "/epochs/" ++ "42" ++ "/distribute"⟩] :=
  c7_single_request_fixed_route "http://localhost:8080" "42" (by decide)
    mock500json

/-- C8: invoking `start_epoch` with epoch id `42` against a remote that
answers `POST http://x/epochs/42/start` with HTTP 200 and JSON body
`\x7b"status": "started"\x7d` yields exactly the text
`Epoch 42 started successfully: \x7b\x27status\x27: \x27started\x27\x7d`
(the decoded mapping rendered in Python dict notation). -/
theorem c8_start_epoch_success_rendering :
    (handle_start_epoch "http://x" mockStart42 [("epoch_id", .pyStr "42")]).1 =
      [⟨"text",
        "Epoch 42 started successfully: \x7b\x27status\x27: \x27started\x27\x7d"⟩] := by
  decide

/-- C3 as stated is false: `os.getenv` applies the default only when the
key is absent. With `EPOCH_SERVER_URL` set to the empty string the base URL
is the empty string, not `http://localhost:8080`, so `health_check` issues
`GET /health` instead of `GET http://localhost:8080/health`. -/
theorem c3_counterexample :
    EPOCH_SERVER_URL [("EPOCH_SERVER_URL", "")] = "" ∧
    EPOCH_SERVER_URL [("EPOCH_SERVER_URL", "")] ≠ "http://localhost:8080" ∧
    (handle_health_check (EPOCH_SERVER_URL [("EPOCH_SERVER_URL", "")])
        mock500json).2 = [⟨.get, "/health"⟩] :=
  ⟨rfl, by decide, rfl⟩

/-- C3 (amended): the default base URL `http://localhost:8080` applies only
when `EPOCH_SERVER_URL` is unset; when the key is set - even to the empty
string - its exact value is the base URL used by all three routes. -/
theorem c3_amended_base_url (env : List (String × String))
    (net : HttpRequest → HttpResult) (e : String) (he : e ≠ "") :
    (env.lookup "EPOCH_SERVER_URL" = none →
      EPOCH_SERVER_URL env = "http://localhost:8080") ∧
    (∀ v, env.lookup "EPOCH_SERVER_URL" = some v →
      EPOCH_SERVER_URL env = v) ∧
    (handle_health_check (EPOCH_SERVER_URL env) net).2 =
      [⟨.get, EPOCH_SERVER_URL env ++ "/health"⟩] ∧
    (handle_start_epoch (EPOCH_SERVER_URL env) net
        [("epoch_id", .pyStr e)]).2 =
      [⟨.post, EPOCH_SERVER_URL env ++ "/epochs/" ++ e ++ "/start"⟩] ∧
    (handle_distribute_subsidies (EPOCH_SERVER_URL env) net
        [("epoch_id", .pyStr e)]).2 =
      [⟨.post, EPOCH_SERVER_URL env ++ "/epochs/" ++ e ++ "/distribute"⟩] := by
  refine ⟨fun h => ?_, fun v h => ?_, handle_health_check_requests _ net,
    handle_start_epoch_requests _ e he net,
    handle_distribute_subsidies_requests _ e he net⟩
  · simp [EPOCH_SERVER_URL, os_getenv, h]
  · simp [EPOCH_SERVER_URL, os_getenv, h]

/-- Witness for C3 (amended): a set key is returned verbatim as base URL. -/
theorem c3_amended_witness :
    EPOCH_SERVER_URL [("EPOCH_SERVER_URL", "http://x")] = "http://x" :=
  (c3_amended_base_url [("EPOCH_SERVER_URL", "http://x")] mock500json "42"
    (by decide)).2.1 "http://x" rfl

/-- C2 as stated is false for `health_check`: on HTTP 500 with JSON body
`\x7b"error": "boom"\x7d` that handler lands in its generic `except` clause
and renders only `str(e)` of the `HTTPStatusError`, which names the status
code and URL but never the response body - the single text block contains
`500` but not `boom`. -/
theorem c2_counterexample :
    (handle_health_check "http://localhost:8080" mock500json).1.map
      (fun t => (strContains t.text "500", strContains t.text "boom")) =
      [(true, false)] := by decide

/-- C2 (amended): on HTTP 500 with JSON body `\x7b"error": "boom"\x7d`,
`start_epoch` and `distribute_subsidies` return a single text block
containing `500` and `boom`; `health_check` returns a single text block
containing `500` but not the body. No handler raises: all three return
normally. -/
theorem c2_amended_http500_json (base e : String) (he : e ≠ "") :
    (handle_start_epoch base mock500json [("epoch_id", .pyStr e)]).1.map
      (fun t => strContains t.text "500" && strContains t.text "boom") =
      [true] ∧
    (handle_distribute_subsidies base mock500json
        [("epoch_id", .pyStr e)]).1.map
      (fun t => strContains t.text "500" && strContains t.text "boom") =
      [true] ∧
    (handle_health_check base mock500json).1.map
      (fun t => strContains t.text "500") = [true] := by
  have h1 : (handle_start_epoch base mock500json
      [("epoch_id", .pyStr e)]).1 =
      [⟨"text", "Failed to start epoch " ++ e ++ ": HTTP " ++
        toString (500 : Nat) ++ " - " ++
        "\x7b\x27error\x27: \x27boom\x27\x7d"⟩] := by
    simp [handle_start_epoch, dictGet, pyTruthy, pyStrOf,
      isEmpty_false_of_ne e he, mock500json, startEpochText, isSuccessStatus,
      pyRepr, pyReprDict]
  have h2 : (handle_distribute_subsidies base mock500json
      [("epoch_id", .pyStr e)]).1 =
      [⟨"text", "Failed to distribute subsidies for epoch " ++ e ++
        ": HTTP " ++ toString (500 : Nat) ++ " - " ++
        "\x7b\x27error\x27: \x27boom\x27\x7d"⟩] := by
    simp [handle_distribute_subsidies, dictGet, pyTruthy, pyStrOf,
      isEmpty_false_of_ne e he, mock500json, distributeText, isSuccessStatus,
      pyRepr, pyReprDict]
  have hb5 : ∀ pre : String, strContains (pre ++ ": HTTP " ++
      toString (500 : Nat) ++ " - " ++
      "\x7b\x27error\x27: \x27boom\x27\x7d") "500" = true := by
    intro pre
    apply strContains_append_left
    apply strContains_append_left
    apply strContains_append_right
    decide
  have hbb : ∀ pre : String, strContains (pre ++ ": HTTP " ++
      toString (500 : Nat) ++ " - " ++
      "\x7b\x27error\x27: \x27boom\x27\x7d") "boom" = true := by
    intro pre
    apply strContains_append_right
    decide
  refine ⟨?_, ?_, ?_⟩
  · rw [h1]
    simp only [List.map_cons, List.map_nil]
    rw [show ("Failed to start epoch " ++ e ++ ": HTTP " ++
      toString (500 : Nat) ++ " - " ++ "\x7b\x27error\x27: \x27boom\x27\x7d")
      = (("Failed to start epoch " ++ e) ++ ": HTTP " ++
      toString (500 : Nat) ++ " - " ++ "\x7b\x27error\x27: \x27boom\x27\x7d")
      from rfl]
    rw [hb5, hbb]
    rfl
  · rw [h2]
    simp only [List.map_cons, List.map_nil]
    rw [show ("Failed to distribute subsidies for epoch " ++ e ++ ": HTTP " ++
      toString (500 : Nat) ++ " - " ++ "\x7b\x27error\x27: \x27boom\x27\x7d")
      = (("Failed to distribute subsidies for epoch " ++ e) ++ ": HTTP " ++
      toString (500 : Nat) ++ " - " ++ "\x7b\x27error\x27: \x27boom\x27\x7d")
      from rfl]
    rw [hb5, hbb]
    rfl
  · show List.map _ [(⟨"text", "Health check failed: " ++
      httpStatusErrorStr 500 "Internal Server Error" (base ++ "/health")⟩ :
      TextContent)] = [true]
    simp only [List.map_cons, List.map_nil, httpStatusErrorStr]
    rw [show strContains ("Health check failed: " ++
      (errorTypeOfStatus 500 ++ " \x27" ++ toString (500 : Nat) ++ " " ++
        "Internal Server Error" ++ "\x27 for url \x27" ++
        (base ++ "/health") ++
        "\x27\nFor more information check: https://developer.mozilla.org/en-US/docs/Web/HTTP/Status/" ++
        toString (500 : Nat))) "500" = true from ?_]
    apply strContains_append_right
    apply strContains_append_right
    decide

/-- Witness for C2 (amended) at base `http://localhost:8080`, epoch `42`. -/
theorem c2_amended_witness :
    (handle_start_epoch "http://localhost:8080" mock500json
        [("epoch_id", .pyStr "42")]).1.map
      (fun t => strContains t.text "500" && strContains t.text "boom") =
      [true] ∧
    (handle_distribute_subsidies "http://localhost:8080" mock500json
        [("epoch_id", .pyStr "42")]).1.map
      (fun t => strContains t.text "500" && strContains t.text "boom") =
      [true] ∧
    (handle_health_check "http://localhost:8080" mock500json).1.map
      (fun t => strContains t.text "500") = [true] :=
  c2_amended_http500_json "http://localhost:8080" "42" (by decide)

/-- C6 as stated is false for `health_check`: on HTTP 500 with the non-JSON
body `boom` that handler renders only `str(e)` of the `HTTPStatusError`
(status code and URL, never the body), so its single text block contains
`500` but not the raw body text `boom`. -/
theorem c6_counterexample :
    (handle_health_check "http://localhost:8080" mock500text).1.map
      (fun t => (strContains t.text "500", strContains t.text "boom")) =
      [(true, false)] := by decide

/-- C6 (amended): on HTTP 500 with the non-JSON body `boom`, `start_epoch`
and `distribute_subsidies` fall back to the raw response text and return a
single text block containing `500` and the literal body `boom`;
`health_check` returns a single text block containing `500` but not the
body. -/
theorem c6_amended_http500_raw_text (base e : String) (he : e ≠ "") :
    (handle_start_epoch base mock500text [("epoch_id", .pyStr e)]).1.map
      (fun t => strContains t.text "500" && strContains t.text "boom") =
      [true] ∧
    (handle_distribute_subsidies base mock500text
        [("epoch_id", .pyStr e)]).1.map
      (fun t => strContains t.text "500" && strContains t.text "boom") =
      [true] ∧
    (handle_health_check base mock500text).1.map
      (fun t => strContains t.text "500") = [true] := by
  have h1 : (handle_start_epoch base mock500text
      [("epoch_id", .pyStr e)]).1 =
      [⟨"text", "Failed to start epoch " ++ e ++ ": HTTP " ++
        toString (500 : Nat) ++ " - " ++ "boom"⟩] := by
    simp [handle_start_epoch, dictGet, pyTruthy, pyStrOf,
      isEmpty_false_of_ne e he, mock500text, startEpochText, isSuccessStatus]
  have h2 : (handle_distribute_subsidies base mock500text
      [("epoch_id", .pyStr e)]).1 =
      [⟨"text", "Failed to distribute subsidies for epoch " ++ e ++
        ": HTTP " ++ toString (500 : Nat) ++ " - " ++ "boom"⟩] := by
    simp [handle_distribute_subsidies, dictGet, pyTruthy, pyStrOf,
      isEmpty_false_of_ne e he, mock500text, distributeText, isSuccessStatus]
  have hb5 : ∀ pre : String, strContains (pre ++ ": HTTP " ++
      toString (500 : Nat) ++ " - " ++ "boom") "500" = true := by
    intro pre
    apply strContains_append_left
    apply strContains_append_left
    apply strContains_append_right
    decide
  have hbb : ∀ pre : String, strContains (pre ++ ": HTTP " ++
      toString (500 : Nat) ++ " - " ++ "boom") "boom" = true := by
    intro pre
    apply strContains_append_right
    decide
  refine ⟨?_, ?_, ?_⟩
  · rw [h1]
    simp only [List.map_cons, List.map_nil]
    rw [show ("Failed to start epoch " ++ e ++ ": HTTP " ++
      toString (500 : Nat) ++ " - " ++ "boom")
      = (("Failed to start epoch " ++ e) ++ ": HTTP " ++
      toString (500 : Nat) ++ " - " ++ "boom") from rfl]
    rw [hb5, hbb]
    rfl
  · rw [h2]
    simp only [List.map_cons, List.map_nil]
    rw [show ("Failed to distribute subsidies for epoch " ++ e ++ ": HTTP " ++
      toString (500 : Nat) ++ " - " ++ "boom")
      = (("Failed to distribute subsidies for epoch " ++ e) ++ ": HTTP " ++
      toString (500 : Nat) ++ " - " ++ "boom") from rfl]
    rw [hb5, hbb]
    rfl
  · show List.map _ [(⟨"text", "Health check failed: " ++
      httpStatusErrorStr 500 "Internal Server Error" (base ++ "/health")⟩ :
      TextContent)] = [true]
    simp only [List.map_cons, List.map_nil, httpStatusErrorStr]
    rw [show strContains ("Health check failed: " ++
      (errorTypeOfStatus 500 ++ " \x27" ++ toString (500 : Nat) ++ " " ++
        "Internal Server Error" ++ "\x27 for url \x27" ++
        (base ++ "/health") ++
        "\x27\nFor more information check: https://developer.mozilla.org/en-US/docs/Web/HTTP/Status/" ++
        toString (500 : Nat))) "500" = true from ?_]
    apply strContains_append_right
    apply strContains_append_right
    decide

/-- Witness for C6 (amended) at base `http://localhost:8080`, epoch `42`. -/
theorem c6_amended_witness :
    (handle_start_epoch "http://localhost:8080" mock500text
        [("epoch_id", .pyStr "42")]).1.map
      (fun t => strContains t.text "500" && strContains t.text "boom") =
      [true] ∧
    (handle_distribute_subsidies "http://localhost:8080" mock500text
        [("epoch_id", .pyStr "42")]).1.map
      (fun t => strContains t.text "500" && strContains t.text "boom") =
      [true] ∧
    (handle_health_check "http://localhost:8080" mock500text).1.map
      (fun t => strContains t.text "500") = [true] :=
  c6_amended_http500_raw_text "http://localhost:8080" "42" (by decide)

/-- C9: when the HTTP call completes with a success (2xx) status but the
body is not decodable as JSON, `response.json()` raises and every handler
lands in its generic `except` clause: the result is the tool\x27s single
failure-formatted text block embedding the decode-failure description, not
a success message, and no exception escapes. -/
theorem c9_success_status_nonjson_body (base e s r : String) (status : Nat)
    (he : e ≠ "") (hs : isSuccessStatus status = true) :
    (handle_health_check base (fun _ => .ok ⟨status, r, .textBody s⟩)).1 =
      [⟨"text", "Health check failed: " ++ jsonDecodeMsg s⟩] ∧
    (handle_start_epoch base (fun _ => .ok ⟨status, r, .textBody s⟩)
        [("epoch_id", .pyStr e)]).1 =
      [⟨"text", "Failed to start epoch " ++ e ++ ": " ++ jsonDecodeMsg s⟩] ∧
    (handle_distribute_subsidies base (fun _ => .ok ⟨status, r, .textBody s⟩)
        [("epoch_id", .pyStr e)]).1 =
      [⟨"text", "Failed to distribute subsidies for epoch " ++ e ++ ": " ++
        jsonDecodeMsg s⟩] := by
  refine ⟨?_, ?_, ?_⟩
  · simp [handle_health_check, healthCheckText, hs]
  · simp [handle_start_epoch, startEpochText, dictGet, pyTruthy, pyStrOf,
      isEmpty_false_of_ne e he, hs]
  · simp [handle_distribute_subsidies, distributeText, dictGet, pyTruthy,
      pyStrOf, isEmpty_false_of_ne e he, hs]

/-- Witness for C9: HTTP 200 with the non-JSON body `boom`. -/
theorem c9_witness :
    (handle_health_check "http://localhost:8080"
        (fun _ => .ok ⟨200, "OK", .textBody "boom"⟩)).1 =
      [⟨"text", "Health check failed: " ++ jsonDecodeMsg "boom"⟩] ∧
    (handle_start_epoch "http://localhost:8080"
        (fun _ => .ok ⟨200, "OK", .textBody "boom"⟩)
        [("epoch_id", .pyStr "42")]).1 =
      [⟨"text", "Failed to start epoch " ++ "42" ++ ": " ++
        jsonDecodeMsg "boom"⟩] ∧
    (handle_distribute_subsidies "http://localhost:8080"
        (fun _ => .ok ⟨200, "OK", .textBody "boom"⟩)
        [("epoch_id", .pyStr "42")]).1 =
      [⟨"text", "Failed to distribute subsidies for epoch " ++ "42" ++
        ": " ++ jsonDecodeMsg "boom"⟩] :=
  c9_success_status_nonjson_body "http://localhost:8080" "42" "boom" "OK" 200
    (by decide) (by decide)

/-- C10: each handler\x27s output is a deterministic function of the
argument mapping and the HTTP outcome: two invocations with identical
arguments whose HTTP calls produce pointwise identical outcomes return
identical results (same text, same requests). -/
theorem c10_deterministic (base : String)
    (net1 net2 : HttpRequest → HttpResult)
    (args1 args2 : List (String × PyObj)) (hargs : args1 = args2)
    (hnet : ∀ q, net1 q = net2 q) :
    handle_health_check base net1 = handle_health_check base net2 ∧
    handle_start_epoch base net1 args1 = handle_start_epoch base net2 args2 ∧
    handle_distribute_subsidies base net1 args1 =
      handle_distribute_subsidies base net2 args2 := by
  have h : net1 = net2 := funext hnet
  subst hargs
  subst h
  exact ⟨rfl, rfl, rfl⟩

/-- Witness for C10: two syntactically different but pointwise equal
network behaviours give identical `start_epoch` results. -/
theorem c10_witness :
    handle_start_epoch "http://x" mockStart42 [("epoch_id", .pyStr "42")] =
      handle_start_epoch "http://x"
        (fun q => if q.method = q.method then mockStart42 q else mock500text q)
        [("epoch_id", .pyStr "42")] :=
  (c10_deterministic "http://x" mockStart42
    (fun q => if q.method = q.method then mockStart42 q else mock500text q)
    [("epoch_id", .pyStr "42")] [("epoch_id", .pyStr "42")] rfl
    (fun q => by simp)).2.1
